import Mathlib

/-!
Shallow embedding of `anker_to_influx.py` (Anker Solix → InfluxDB telemetry
pipeline) and verification of its specification claims.

Python dictionaries are modelled as association lists over a `PyVal` value
type; machine floats are modelled as rationals (`Rat`); fallible Python code
(KeyError / IndexError / TypeError / ValueError) is modelled with `Except`.
Unix timestamps are `Int` seconds; the process-local timezone is modelled as
a fixed UTC offset `tz : Int` (seconds east of UTC), and the wall clock is
passed explicitly as `now : Int`.
-/

namespace AnkerSolix

/-- Python runtime values, as far as this program observes them. -/
inductive PyVal where
  | str : String → PyVal
  | num : Rat → PyVal
  | int : Int → PyVal
  | list : List PyVal → PyVal
  | dict : List (String × PyVal) → PyVal

/-- The Python exceptions this program can raise during normalization. -/
inductive PyErr where
  | keyError (k : String)
  | indexError
  | typeError
  | valueError
  deriving DecidableEq

/-- Dictionary lookup (`d[k]` / `k in d` / `d.get(k)`): first matching key. -/
def dlookup (d : List (String × PyVal)) (k : String) : Option PyVal :=
  (d.find? (fun kv => kv.1 = k)).map (fun kv => kv.2)

/-- `d[k]`: raises `KeyError` when the key is absent. -/
def require (d : List (String × PyVal)) (k : String) : Except PyErr PyVal :=
  match dlookup d k with
  | some v => Except.ok v
  | none => Except.error (PyErr.keyError k)

/-- Using a value as a dictionary; anything else is a `TypeError`. -/
def asDict : PyVal → Except PyErr (List (String × PyVal))
  | PyVal.dict d => Except.ok d
  | _ => Except.error PyErr.typeError

/-- Using a value as a list; anything else is a `TypeError`. -/
def asList : PyVal → Except PyErr (List PyVal)
  | PyVal.list l => Except.ok l
  | _ => Except.error PyErr.typeError

/-- Using a value as a string; anything else is a `TypeError`. -/
def asStr : PyVal → Except PyErr String
  | PyVal.str s => Except.ok s
  | _ => Except.error PyErr.typeError

/-- Value of a decimal digit character, `none` for non-digits. -/
def digit? (c : Char) : Option Nat :=
  if '0' ≤ c ∧ c ≤ '9' then some (c.toNat - 48) else none

/-- The character of a decimal digit. -/
def digitChar (n : Nat) : Char := Char.ofNat (48 + n)

/-- Fold a digit string into its numeric value (most significant first);
`none` on any non-digit. -/
def digitsValAux (acc : Nat) : List Char → Option Nat
  | [] => some acc
  | c :: rest =>
    match digit? c with
    | some d => digitsValAux (acc * 10 + d) rest
    | none => none

/-- Unsigned decimal literal: digits with at most one point, not all empty. -/
def parseUnsignedDec (l : List Char) : Option Rat :=
  match l.splitOn '.' with
  | [a] =>
    if a = [] then none else (digitsValAux 0 a).map (fun n => (n : Rat))
  | [a, b] =>
    if a = [] ∧ b = [] then none
    else
      match digitsValAux 0 a, digitsValAux 0 b with
      | some ia, some fb =>
        some ((ia : Rat) + (fb : Rat) / ((10 : Rat) ^ b.length))
      | _, _ => none
  | _ => none

/-- Modelled from the spec: Python's builtin `float()` applied to a plain
decimal string (an external CPython builtin; scientific notation,
underscores and special values are outside what this program feeds it).
Returns `none` exactly when `float()` would raise `ValueError`. -/
def parseDecimal (s : String) : Option Rat :=
  match s.data with
  | '-' :: rest => (parseUnsignedDec rest).map Neg.neg
  | '+' :: rest => parseUnsignedDec rest
  | l => parseUnsignedDec l

/-- Python's `float(x)` numeric coercion as used by this program:
numbers coerce to themselves, numeric strings parse, anything else is an
error (`TypeError` / `ValueError`). -/
def pyFloat : PyVal → Except PyErr Rat
  | PyVal.num q => Except.ok q
  | PyVal.int n => Except.ok (n : Rat)
  | PyVal.str s =>
    match parseDecimal s with
    | some q => Except.ok q
    | none => Except.error PyErr.valueError
  | _ => Except.error PyErr.typeError

/-! ### Timestamp parsing (`parse_timestamp`, source lines 143–149)

`datetime.strptime(s, "%Y-%m-%d %H:%M:%S")` followed by
`int(dt.timestamp())` is modelled by a strict fixed-format parser plus
proleptic-Gregorian date arithmetic under a fixed local UTC offset. -/

/-- Gregorian leap year (as in CPython's `datetime` module). -/
def isLeap (y : Nat) : Bool :=
  (y % 4 == 0 && y % 100 != 0) || y % 400 == 0

/-- Number of days in month `m` of year `y` (months are 1-based). -/
def daysInMonth (y m : Nat) : Nat :=
  if m = 2 then (if isLeap y then 29 else 28)
  else if m = 4 ∨ m = 6 ∨ m = 9 ∨ m = 11 then 30
  else 31

/-- Days in all years before year `y` (proleptic Gregorian, year ≥ 1). -/
def daysBeforeYear (y : Nat) : Nat :=
  (y - 1) * 365 + (y - 1) / 4 - (y - 1) / 100 + (y - 1) / 400

/-- Days in year `y` before the first day of month `m`. -/
def daysBeforeMonth (y m : Nat) : Nat :=
  (List.range (m - 1)).foldl (fun acc i => acc + daysInMonth y (i + 1)) 0

/-- Proleptic Gregorian ordinal of a date (ordinal of 0001-01-01 is 1),
as in CPython's `datetime.toordinal`. -/
def toOrdinal (y m d : Nat) : Nat :=
  daysBeforeYear y + daysBeforeMonth y m + d

/-- Proleptic Gregorian ordinal of the Unix epoch day 1970-01-01. -/
def epochOrdinal : Nat := 719163

/-- Unix seconds of a UTC date-time. -/
def dateToUnixUTC (y m d h mi s : Nat) : Int :=
  ((toOrdinal y m d : Int) - (epochOrdinal : Int)) * 86400
    + ((h * 3600 + mi * 60 + s : Nat) : Int)

/-- Unix seconds of a local-time date-time under fixed UTC offset `tz`
(seconds east of UTC): models `datetime(...).timestamp()` on a naive
datetime interpreted in local time. -/
def localToUnix (y m d h mi s : Nat) (tz : Int) : Int :=
  dateToUnixUTC y m d h mi s - tz

/-- Validity of parsed components: exactly the values for which
`datetime.strptime(s, "%Y-%m-%d %H:%M:%S")` returns a datetime rather than
raising `ValueError` (the datetime constructor validates the ranges). -/
def validDateTime (y m d h mi s : Nat) : Prop :=
  1 ≤ y ∧ 1 ≤ m ∧ m ≤ 12 ∧ 1 ≤ d ∧ d ≤ daysInMonth y m ∧
    h ≤ 23 ∧ mi ≤ 59 ∧ s ≤ 59

instance (y m d h mi s : Nat) : Decidable (validDateTime y m d h mi s) := by
  unfold validDateTime
  infer_instance

/-- Modelled from the spec: `datetime.strptime` with the fixed format
`%Y-%m-%d %H:%M:%S` (an external CPython function), read strictly per the
spec's "strict format YYYY-MM-DD HH:MM:SS": four year digits, zero-padded
two-digit fields, the literal separators, and calendar-valid values.
Returns the parsed components, or `none` when parsing raises. -/
def strptimeFormat (s : String) : Option (Nat × Nat × Nat × Nat × Nat × Nat) :=
  match s.data with
  | [y1, y2, y3, y4, c1, m1, m2, c2, d1, d2, c3, h1, h2, c4, i1, i2, c5, s1, s2] =>
    if c1 = '-' ∧ c2 = '-' ∧ c3 = ' ' ∧ c4 = ':' ∧ c5 = ':' then
      match digit? y1, digit? y2, digit? y3, digit? y4, digit? m1, digit? m2,
          digit? d1, digit? d2, digit? h1, digit? h2, digit? i1, digit? i2,
          digit? s1, digit? s2 with
      | some a1, some a2, some a3, some a4, some b1, some b2, some e1, some e2,
          some f1, some f2, some g1, some g2, some k1, some k2 =>
        let y := a1 * 1000 + a2 * 100 + a3 * 10 + a4
        let m := b1 * 10 + b2
        let d := e1 * 10 + e2
        let h := f1 * 10 + f2
        let mi := g1 * 10 + g2
        let sec := k1 * 10 + k2
        if validDateTime y m d h mi sec then some (y, m, d, h, mi, sec)
        else none
      | _, _, _, _, _, _, _, _, _, _, _, _, _, _ => none
    else none
  | _ => none

/-- `parse_timestamp` (source lines 143–149): parse the strict format and
return Unix seconds of that local time; on any parse failure return the
current wall-clock time `now` (Unix seconds). -/
def parse_timestamp (now tz : Int) (timestamp_str : String) : Int :=
  match strptimeFormat timestamp_str with
  | some (y, m, d, h, mi, s) => localToUnix y m d h mi s tz
  | none => now

/-- Zero-padded fixed-width decimal rendering (2 digits). -/
def twoDigits (n : Nat) : List Char := [digitChar (n / 10 % 10), digitChar (n % 10)]

/-- Zero-padded fixed-width decimal rendering (4 digits). -/
def fourDigits (n : Nat) : List Char :=
  [digitChar (n / 1000 % 10), digitChar (n / 100 % 10),
    digitChar (n / 10 % 10), digitChar (n % 10)]

/-- The strict `YYYY-MM-DD HH:MM:SS` rendering of date-time components. -/
def formatDateTime (y m d h mi s : Nat) : String :=
  String.mk (fourDigits y ++ ['-'] ++ twoDigits m ++ ['-'] ++ twoDigits d
    ++ [' '] ++ twoDigits h ++ [':'] ++ twoDigits mi ++ [':'] ++ twoDigits s)

/-! ### Metric normalizer (`fetch_anker_data`, source lines 95–140) -/

/-- `float(d.get(k, 0.0))`: optional field with default `0.0`. -/
def getOptFloat (d : List (String × PyVal)) (k : String) : Except PyErr Rat :=
  pyFloat ((dlookup d k).getD (PyVal.num 0))

/-- `site.get('grid_info', {})` used as a dictionary (source line 107). -/
def gridInfoOf (site : List (String × PyVal)) :
    Except PyErr (List (String × PyVal)) :=
  match dlookup site "grid_info" with
  | none => Except.ok []
  | some v => asDict v

/-- Battery info from the first solarbank when the list is non-empty
(source lines 110–115); result is
`(battery_charge_power, battery_percentage)`, both `0.0` on an empty list. -/
def batteryOf : List PyVal → Except PyErr (Rat × Rat)
  | [] => Except.ok (0, 0)
  | fb :: _ => do
    let fbd ← asDict fb
    let cp ← pyFloat (← require fbd "charging_power")
    let bp ← pyFloat (← require fbd "battery_power")
    Except.ok (cp, bp)

/-- Per-site body of `fetch_anker_data` (source lines 104–138): a site
without a `solarbank_info` block yields no record (`Except.ok none`);
otherwise the flat record dictionary is built, raising on missing required
keys (`solarbank_list`, `updated_time`, `site_info`/`site_name`,
`total_photovoltaic_power`) and defaulting every `.get` field to `0.0`. -/
def normalize_site (now tz : Int) (site : List (String × PyVal)) :
    Except PyErr (Option (List (String × PyVal))) :=
  match dlookup site "solarbank_info" with
  | none => Except.ok none
  | some infoV => do
    let info ← asDict infoV
    let grid_info ← gridInfoOf site
    let sblist ← asList (← require info "solarbank_list")
    let battery ← batteryOf sblist
    let uts ← asStr (← require info "updated_time")
    let timestamp := parse_timestamp now tz uts
    let sid ← asDict (← require site "site_info")
    let site_name ← require sid "site_name"
    let tpv ← pyFloat (← require info "total_photovoltaic_power")
    let sp1 ← getOptFloat info "solar_power_1"
    let sp2 ← getOptFloat info "solar_power_2"
    let sp3 ← getOptFloat info "solar_power_3"
    let sp4 ← getOptFloat info "solar_power_4"
    let hlp ← getOptFloat site "home_load_power"
    let gthp ← getOptFloat grid_info "grid_to_home_power"
    let ptgp ← getOptFloat grid_info "photovoltaic_to_grid_power"
    let thl ← getOptFloat info "to_home_load"
    let acp ← getOptFloat info "ac_power"
    Except.ok (some [
      ("site_name", site_name),
      ("total_photovoltaic_power", PyVal.num tpv),
      ("solar_power_1", PyVal.num sp1),
      ("solar_power_2", PyVal.num sp2),
      ("solar_power_3", PyVal.num sp3),
      ("solar_power_4", PyVal.num sp4),
      ("battery_percentage", PyVal.num battery.2),
      ("battery_charge_power", PyVal.num battery.1),
      ("home_load_power", PyVal.num hlp),
      ("grid_to_home_power", PyVal.num gthp),
      ("photovoltaic_to_grid_power", PyVal.num ptgp),
      ("to_home_load", PyVal.num thl),
      ("ac_power", PyVal.num acp),
      ("timestamp", PyVal.int timestamp)])

/-- `fetch_anker_data` over the fetched site states (source lines 104–140):
records of normalized sites in order; an exception while normalizing any
site aborts the whole fetch. -/
def fetch_anker_data (now tz : Int) :
    List (List (String × PyVal)) → Except PyErr (List (List (String × PyVal)))
  | [] => Except.ok []
  | site :: rest =>
    match normalize_site now tz site with
    | Except.error e => Except.error e
    | Except.ok none => fetch_anker_data now tz rest
    | Except.ok (some r) =>
      match fetch_anker_data now tz rest with
      | Except.error e => Except.error e
      | Except.ok out => Except.ok (r :: out)

/-- The fixed key set of a produced record, in construction order. -/
def record_keys : List String :=
  ["site_name", "total_photovoltaic_power", "solar_power_1", "solar_power_2",
   "solar_power_3", "solar_power_4", "battery_percentage",
   "battery_charge_power", "home_load_power", "grid_to_home_power",
   "photovoltaic_to_grid_power", "to_home_load", "ac_power", "timestamp"]

/-- The twelve power-metric field names written to the `anker_power` point. -/
def power_field_names : List String :=
  ["total_photovoltaic_power", "solar_power_1", "solar_power_2",
   "solar_power_3", "solar_power_4", "battery_percentage",
   "battery_charge_power", "home_load_power", "grid_to_home_power",
   "photovoltaic_to_grid_power", "to_home_load", "ac_power"]

/-! ### Raw point writer (`write_to_influx`, source lines 159–178) -/

/-- A time-series point as constructed by the writer. -/
structure Point where
  measurement : String
  tags : List (String × PyVal)
  fields : List (String × PyVal)
  time : PyVal

/-- The `anker_power` point built for one record (source lines 159–178):
tag `site_name`, the twelve power fields, second-precision timestamp. -/
def mkPoint (site_data : List (String × PyVal)) : Except PyErr Point := do
  let sn ← require site_data "site_name"
  let tpv ← require site_data "total_photovoltaic_power"
  let sp1 ← require site_data "solar_power_1"
  let sp2 ← require site_data "solar_power_2"
  let sp3 ← require site_data "solar_power_3"
  let sp4 ← require site_data "solar_power_4"
  let bpct ← require site_data "battery_percentage"
  let bcp ← require site_data "battery_charge_power"
  let hlp ← require site_data "home_load_power"
  let gthp ← require site_data "grid_to_home_power"
  let ptgp ← require site_data "photovoltaic_to_grid_power"
  let thl ← require site_data "to_home_load"
  let acp ← require site_data "ac_power"
  let ts ← require site_data "timestamp"
  Except.ok
    { measurement := "anker_power"
      tags := [("site_name", sn)]
      fields := [
        ("total_photovoltaic_power", tpv),
        ("solar_power_1", sp1),
        ("solar_power_2", sp2),
        ("solar_power_3", sp3),
        ("solar_power_4", sp4),
        ("battery_percentage", bpct),
        ("battery_charge_power", bcp),
        ("home_load_power", hlp),
        ("grid_to_home_power", gthp),
        ("photovoltaic_to_grid_power", ptgp),
        ("to_home_load", thl),
        ("ac_power", acp)]
      time := ts }

/-! ### Daily statistics (`calculate_daily_stats`, source lines 25–92) -/

/-- Start-of-day computation (source lines 30–31):
`datetime.fromtimestamp(t).replace(hour=0, minute=0, second=0)` followed by
`int(...timestamp())`, under a fixed local UTC offset `tz`. -/
def start_of_day (tz t : Int) : Int :=
  (t + tz) - (t + tz) % 86400 - tz

/-- A Flux query as built by `calculate_daily_stats`: the parameters
interpolated into the query string. -/
structure FluxQuery where
  bucket : String
  start : Int
  measurement : String
  site_name : String
  field : String
  deriving DecidableEq

/-- The three integral queries of `calculate_daily_stats` (source lines
34–64), in order consumption, generation, grid import, all sharing the one
computed `start_timestamp`. -/
def daily_queries (bucket site_name : String) (tz t : Int) :
    FluxQuery × FluxQuery × FluxQuery :=
  let start_timestamp := start_of_day tz t
  (⟨bucket, start_timestamp, "anker_power", site_name, "home_load_power"⟩,
   ⟨bucket, start_timestamp, "anker_power", site_name,
     "total_photovoltaic_power"⟩,
   ⟨bucket, start_timestamp, "anker_power", site_name, "grid_to_home_power"⟩)

/-- The derived statistics record returned by `calculate_daily_stats`. -/
structure DailyStats where
  daily_consumption : Rat
  daily_generation : Rat
  autarky : Rat
  self_consumption : Rat
  deriving DecidableEq

/-- Pure statistics computation (source lines 77–88). -/
def daily_stats_core (daily_consumption daily_generation grid_import : Rat) :
    DailyStats :=
  let self_consumed := daily_consumption - grid_import
  { daily_consumption := daily_consumption
    daily_generation := daily_generation
    autarky :=
      if daily_consumption > 0 then self_consumed / daily_consumption * 100
      else 0
    self_consumption :=
      if daily_generation > 0 then self_consumed / daily_generation * 100
      else 0 }

/-- `float(result[0].records[0].get_value() if result else 0.0)` (source
lines 72–74): a query result is a list of tables, each a list of record
values; an empty result defaults to `0.0`, while a first table without
records raises `IndexError`. -/
def extract_value : List (List Rat) → Except PyErr Rat
  | [] => Except.ok 0
  | [] :: _ => Except.error PyErr.indexError
  | (v :: _) :: _ => Except.ok v

/-- Result computation of `calculate_daily_stats` (source lines 66–92)
given the three query results; any exception during extraction is caught
and the function returns `None`. -/
def calculate_daily_stats
    (consumption_result generation_result grid_import_result :
      List (List Rat)) : Option DailyStats :=
  match extract_value consumption_result with
  | Except.error _ => none
  | Except.ok dc =>
    match extract_value generation_result with
    | Except.error _ => none
    | Except.ok dg =>
      match extract_value grid_import_result with
      | Except.error _ => none
      | Except.ok gi => some (daily_stats_core dc dg gi)

/-! ### Collection loop (`__main__`, source lines 204–228) -/

/-- Outcome of one iteration body (fetch + write), abstracting the external
world: fetched data may be truthy or empty, or an exception may be raised. -/
inductive CycleOutcome where
  | ok (hasData : Bool)
  | raised (msg : String)

/-- Observable event of the main loop: one of the three per-iteration
outcomes, or an inter-iteration sleep. -/
inductive LoopEvent where
  | success (k : Nat)
  | noData (k : Nat)
  | errorCaught (k : Nat)
  | sleep
  deriving DecidableEq

/-- The `try/except` body of iteration `k` (source lines 211–220): an
exception is caught and logged, truthy data is written, empty data logged. -/
def iteration_event (outcome : Nat → CycleOutcome) (k : Nat) : LoopEvent :=
  match outcome k with
  | CycleOutcome.ok true => LoopEvent.success k
  | CycleOutcome.ok false => LoopEvent.noData k
  | CycleOutcome.raised _ => LoopEvent.errorCaught k

/-- The `while iterations < max_iterations` loop (source lines 210–225),
driven by the number `remaining` of iterations still to run
(`remaining = max_iterations - iterations`, so the guard
`iterations < max_iterations` is `remaining > 0`) with `i` the current
value of `iterations`: the `try/except` body runs, `finally` increments
the counter, and `time.sleep(delay)` runs only when the incremented
counter is still below `max_iterations`, i.e. when `remaining > 0` after
the decrement. -/
def loop_body (outcome : Nat → CycleOutcome) : Nat → Nat → List LoopEvent
  | 0, _ => []
  | remaining + 1, i =>
    iteration_event outcome i ::
      (if remaining = 0 then []
       else LoopEvent.sleep :: loop_body outcome remaining (i + 1))

/-- The whole main-loop execution, starting from `iterations = 0`. -/
def main_loop_trace (max_iterations : Nat) (outcome : Nat → CycleOutcome) :
    List LoopEvent :=
  loop_body outcome max_iterations 0

/-- Whether an event is the completion of an iteration (not a sleep). -/
def isIteration : LoopEvent → Bool
  | LoopEvent.sleep => false
  | _ => true

/-! ## Claims -/

/-- The autarky ratio when consumption is positive. -/
theorem autarky_of_pos (dc dg gi : Rat) (h : 0 < dc) :
    (daily_stats_core dc dg gi).autarky = (dc - gi) / dc * 100 := by
  simp only [daily_stats_core]
  rw [if_pos h]

/-- The autarky ratio defaults to zero for non-positive consumption. -/
theorem autarky_of_nonpos (dc dg gi : Rat) (h : dc ≤ 0) :
    (daily_stats_core dc dg gi).autarky = 0 := by
  simp only [daily_stats_core]
  rw [if_neg (not_lt.mpr h)]

/-- The self-consumption ratio when generation is positive. -/
theorem self_consumption_of_pos (dc dg gi : Rat) (h : 0 < dg) :
    (daily_stats_core dc dg gi).self_consumption = (dc - gi) / dg * 100 := by
  simp only [daily_stats_core]
  rw [if_pos h]

/-- The self-consumption ratio defaults to zero for non-positive
generation. -/
theorem self_consumption_of_nonpos (dc dg gi : Rat) (h : dg ≤ 0) :
    (daily_stats_core dc dg gi).self_consumption = 0 := by
  simp only [daily_stats_core]
  rw [if_neg (not_lt.mpr h)]

/-- C2: Zero-denominator policy: `calculate_daily_stats` returns `autarky`
exactly `0.0` whenever `daily_consumption ≤ 0` and
`self_consumed / daily_consumption * 100` when `daily_consumption > 0`;
likewise `self_consumption` is `0.0` whenever `daily_generation ≤ 0` and
`self_consumed / daily_generation * 100` when `daily_generation > 0`;
no division-by-zero fault occurs for any input. -/
theorem c2_zero_denominator_policy (dc dg gi : Rat) :
    (dc ≤ 0 → (daily_stats_core dc dg gi).autarky = 0) ∧
    (0 < dc → (daily_stats_core dc dg gi).autarky = (dc - gi) / dc * 100) ∧
    (dg ≤ 0 → (daily_stats_core dc dg gi).self_consumption = 0) ∧
    (0 < dg →
      (daily_stats_core dc dg gi).self_consumption = (dc - gi) / dg * 100) :=
  ⟨autarky_of_nonpos dc dg gi, autarky_of_pos dc dg gi,
    self_consumption_of_nonpos dc dg gi, self_consumption_of_pos dc dg gi⟩

/-- Witness for C2 at concrete inputs, including negative integrals and the
spec's worked example `(1000, 1200, 400) ↦ (60, 50)`. -/
theorem c2_zero_denominator_policy_witness :
    (daily_stats_core (-5) (-3) 7).autarky = 0 ∧
    (daily_stats_core (-5) (-3) 7).self_consumption = 0 ∧
    (daily_stats_core 1000 1200 400).autarky = 60 ∧
    (daily_stats_core 1000 1200 400).self_consumption = 50 := by
  refine ⟨(c2_zero_denominator_policy (-5) (-3) 7).1 (by norm_num),
    (c2_zero_denominator_policy (-5) (-3) 7).2.2.1 (by norm_num), ?_, ?_⟩
  · rw [(c2_zero_denominator_policy 1000 1200 400).2.1 (by norm_num)]
    norm_num
  · rw [(c2_zero_denominator_policy 1000 1200 400).2.2.2 (by norm_num)]
    norm_num

/-- C5: Unclamped self-consumed energy: `self_consumed` is exactly
`daily_consumption - grid_import` with no clamping to zero; when
`grid_import > daily_consumption` the negative value propagates as-is into
both ratios. -/
theorem c5_unclamped_self_consumed (dc dg gi : Rat) (hdc : 0 < dc)
    (hgi : dc < gi) :
    (daily_stats_core dc dg gi).autarky = (dc - gi) / dc * 100 ∧
    (daily_stats_core dc dg gi).autarky < 0 ∧
    (0 < dg →
      (daily_stats_core dc dg gi).self_consumption = (dc - gi) / dg * 100 ∧
      (daily_stats_core dc dg gi).self_consumption < 0) := by
  have hneg : dc - gi < 0 := by linarith
  refine ⟨autarky_of_pos dc dg gi hdc, ?_,
    fun hdg => ⟨self_consumption_of_pos dc dg gi hdg, ?_⟩⟩
  · rw [autarky_of_pos dc dg gi hdc]
    exact mul_neg_of_neg_of_pos (div_neg_of_neg_of_pos hneg hdc) (by norm_num)
  · rw [self_consumption_of_pos dc dg gi hdg]
    exact mul_neg_of_neg_of_pos (div_neg_of_neg_of_pos hneg hdg) (by norm_num)

/-- Witness for C5: grid import 150 against consumption 100 yields
autarky −50% and self-consumption −100%, unclamped. -/
theorem c5_unclamped_self_consumed_witness :
    (daily_stats_core 100 50 150).autarky = -50 ∧
    (daily_stats_core 100 50 150).self_consumption = -100 := by
  have h := c5_unclamped_self_consumed 100 50 150 (by norm_num) (by norm_num)
  refine ⟨?_, ?_⟩
  · rw [h.1]; norm_num
  · rw [(h.2.2 (by norm_num)).1]; norm_num

/-- C4: Missing query data policy: whenever one of the three integral
queries yields no records, the corresponding value used in the statistics
computation is exactly `0.0`, and a stats result is still returned. -/
theorem c4_missing_query_data (rA rB : List (List Rat)) (a b : Rat)
    (hA : extract_value rA = Except.ok a)
    (hB : extract_value rB = Except.ok b) :
    calculate_daily_stats [] rA rB = some (daily_stats_core 0 a b) ∧
    calculate_daily_stats rA [] rB = some (daily_stats_core a 0 b) ∧
    calculate_daily_stats rA rB [] = some (daily_stats_core a b 0) := by
  have hnil : extract_value [] = Except.ok 0 := rfl
  refine ⟨?_, ?_, ?_⟩ <;>
    · unfold calculate_daily_stats
      rw [hnil, hA, hB]

/-- Witness for C4 at concrete query results. -/
theorem c4_missing_query_data_witness :
    calculate_daily_stats [] [[5]] [[7]] = some (daily_stats_core 0 5 7) ∧
    calculate_daily_stats [[5]] [] [[7]] = some (daily_stats_core 5 0 7) ∧
    calculate_daily_stats [[5]] [[7]] [] = some (daily_stats_core 5 7 0) :=
  c4_missing_query_data [[5]] [[7]] 5 7 rfl rfl

/-- C8: Start-of-day window computation: for every reference timestamp `t`
(and fixed local offset `tz`), the computed window start is ≤ `t`, lies in
the same local calendar day as `t`, has local time-of-day `00:00:00`, and
is the single start used by all three integral queries. -/
theorem c8_start_of_day_window (bucket site : String) (tz t : Int) :
    start_of_day tz t ≤ t ∧
    (start_of_day tz t + tz) / 86400 = (t + tz) / 86400 ∧
    (start_of_day tz t + tz) % 86400 = 0 ∧
    (daily_queries bucket site tz t).1.start = start_of_day tz t ∧
    (daily_queries bucket site tz t).2.1.start = start_of_day tz t ∧
    (daily_queries bucket site tz t).2.2.start = start_of_day tz t ∧
    (daily_queries bucket site tz t).1.field = "home_load_power" ∧
    (daily_queries bucket site tz t).2.1.field = "total_photovoltaic_power" ∧
    (daily_queries bucket site tz t).2.2.field = "grid_to_home_power" := by
  refine ⟨by unfold start_of_day; omega, by unfold start_of_day; omega,
    by unfold start_of_day; omega, rfl, rfl, rfl, rfl, rfl, rfl⟩

/-- The event of an iteration is never a sleep, whatever its outcome. -/
theorem isIteration_iteration_event (outcome : Nat → CycleOutcome) (k : Nat) :
    isIteration (iteration_event outcome k) = true := by
  unfold iteration_event
  cases outcome k with
  | ok b => cases b <;> rfl
  | raised m => rfl

/-- An iteration event is distinct from the sleep event. -/
theorem iteration_event_ne_sleep (outcome : Nat → CycleOutcome) (k : Nat) :
    iteration_event outcome k ≠ LoopEvent.sleep := by
  unfold iteration_event
  cases outcome k with
  | ok b => cases b <;> simp
  | raised m => simp

/-- The loop always performs exactly `remaining` further iterations,
regardless of the outcomes. -/
theorem loop_body_filter_length (outcome : Nat → CycleOutcome) :
    ∀ r i, ((loop_body outcome r i).filter isIteration).length = r := by
  intro r
  induction r with
  | zero => intro i; rfl
  | succ n ih =>
    intro i
    cases n with
    | zero =>
      simp [loop_body, List.filter, isIteration_iteration_event]
    | succ m =>
      have hb : loop_body outcome (m + 1 + 1) i =
          iteration_event outcome i ::
            LoopEvent.sleep :: loop_body outcome (m + 1) (i + 1) := by
        simp [loop_body]
      have hs : isIteration LoopEvent.sleep = false := rfl
      simp [hb, List.filter_cons, isIteration_iteration_event, hs, ih]

/-- Every iteration index in the remaining window occurs in the trace. -/
theorem iteration_event_mem_loop_body (outcome : Nat → CycleOutcome) :
    ∀ r i j, i ≤ j → j < i + r →
      iteration_event outcome j ∈ loop_body outcome r i := by
  intro r
  induction r with
  | zero => intro i j h1 h2; exact absurd h2 (by omega)
  | succ n ih =>
    intro i j h1 h2
    rcases Nat.eq_or_lt_of_le h1 with rfl | hlt
    · simp only [loop_body]
      exact List.mem_cons_self _ _
    · cases n with
      | zero => exact absurd h2 (by omega)
      | succ m =>
        have hmem : iteration_event outcome j ∈ loop_body outcome (m + 1) (i + 1) :=
          ih (i + 1) j (by omega) (by omega)
        have hb : loop_body outcome (m + 1 + 1) i =
            iteration_event outcome i ::
              LoopEvent.sleep :: loop_body outcome (m + 1) (i + 1) := by
          simp [loop_body]
        rw [hb]
        exact List.mem_cons_of_mem _ (List.mem_cons_of_mem _ hmem)

/-- C6: Cycle isolation and fixed iteration budget: if iteration `k` raises
during fetch or write, the exception is caught (the iteration produces an
`errorCaught` event) and every iteration below `N` still executes; the loop
performs exactly `N = max_iterations` iterations. -/
theorem c6_cycle_isolation (N k : Nat) (outcome : Nat → CycleOutcome)
    (msg : String) (hk : outcome k = CycleOutcome.raised msg) (hkN : k < N) :
    ((main_loop_trace N outcome).filter isIteration).length = N ∧
    LoopEvent.errorCaught k ∈ main_loop_trace N outcome ∧
    ∀ j, j < N → iteration_event outcome j ∈ main_loop_trace N outcome := by
  unfold main_loop_trace
  refine ⟨loop_body_filter_length outcome N 0, ?_,
    fun j hj => iteration_event_mem_loop_body outcome N 0 j (Nat.zero_le _)
      (by omega)⟩
  have he : iteration_event outcome k = LoopEvent.errorCaught k := by
    unfold iteration_event
    rw [hk]
  rw [← he]
  exact iteration_event_mem_loop_body outcome N 0 k (Nat.zero_le _) (by omega)

/-- Witness for C6: with 3 iterations and iteration 1 raising, all three
iterations still complete and the error is caught. -/
theorem c6_cycle_isolation_witness :
    ((main_loop_trace 3 (fun n =>
        if n = 1 then CycleOutcome.raised "boom" else CycleOutcome.ok true)).filter
      isIteration).length = 3 ∧
    LoopEvent.errorCaught 1 ∈ main_loop_trace 3 (fun n =>
      if n = 1 then CycleOutcome.raised "boom" else CycleOutcome.ok true) ∧
    iteration_event (fun n =>
        if n = 1 then CycleOutcome.raised "boom" else CycleOutcome.ok true) 2 ∈
      main_loop_trace 3 (fun n =>
        if n = 1 then CycleOutcome.raised "boom" else CycleOutcome.ok true) := by
  have h := c6_cycle_isolation 3 1 (fun n =>
    if n = 1 then CycleOutcome.raised "boom" else CycleOutcome.ok true)
    "boom" rfl (by norm_num)
  exact ⟨h.1, h.2.1, h.2.2 2 (by norm_num)⟩

/-- The trace from `r + 1` remaining iterations is `r` blocks of an
iteration followed by a sleep, then the final iteration with no sleep. -/
theorem loop_body_blocks (outcome : Nat → CycleOutcome) :
    ∀ r i, loop_body outcome (r + 1) i =
      (List.range' i r).flatMap
        (fun k => [iteration_event outcome k, LoopEvent.sleep]) ++
      [iteration_event outcome (i + r)] := by
  intro r
  induction r with
  | zero => intro i; simp [loop_body]
  | succ n ih =>
    intro i
    have hb : loop_body outcome (n + 1 + 1) i =
        iteration_event outcome i ::
          LoopEvent.sleep :: loop_body outcome (n + 1) (i + 1) := by
      simp [loop_body]
    have hn : i + 1 + n = i + (n + 1) := by omega
    rw [hb, ih (i + 1), hn, List.range'_succ, List.flatMap_cons]
    simp

/-- Each iteration-sleep block contributes exactly one sleep. -/
theorem sleep_count_blocks (outcome : Nat → CycleOutcome) (l : List Nat) :
    ((l.flatMap (fun k => [iteration_event outcome k, LoopEvent.sleep])).filter
      (fun e => e = LoopEvent.sleep)).length = l.length := by
  induction l with
  | nil => rfl
  | cons a t ih =>
    rw [List.flatMap_cons, List.filter_append]
    have h1 : ([iteration_event outcome a, LoopEvent.sleep].filter
        (fun e => e = LoopEvent.sleep)) = [LoopEvent.sleep] := by
      simp [List.filter, iteration_event_ne_sleep outcome a]
    rw [h1]
    simp [ih]

/-- C10: No trailing delay: with `N ≥ 1` configured iterations the
inter-iteration sleep happens exactly `N - 1` times, once after each
iteration except the last, and the trace ends with the final iteration. -/
theorem c10_no_trailing_delay (N : Nat) (outcome : Nat → CycleOutcome)
    (hN : 1 ≤ N) :
    main_loop_trace N outcome =
      (List.range (N - 1)).flatMap
        (fun k => [iteration_event outcome k, LoopEvent.sleep]) ++
      [iteration_event outcome (N - 1)] ∧
    ((main_loop_trace N outcome).filter
      (fun e => e = LoopEvent.sleep)).length = N - 1 := by
  obtain ⟨r, rfl⟩ : ∃ r, N = r + 1 := ⟨N - 1, by omega⟩
  have h1 : main_loop_trace (r + 1) outcome =
      (List.range r).flatMap
        (fun k => [iteration_event outcome k, LoopEvent.sleep]) ++
      [iteration_event outcome r] := by
    unfold main_loop_trace
    rw [List.range_eq_range']
    simpa using loop_body_blocks outcome r 0
  refine ⟨by simpa using h1, ?_⟩
  rw [h1, List.filter_append, List.length_append, sleep_count_blocks]
  have h2 : ([iteration_event outcome r].filter
      (fun e => e = LoopEvent.sleep)) = [] := by
    simp [List.filter, iteration_event_ne_sleep outcome r]
  rw [h2]
  simp

/-- Witness for C10: four iterations sleep exactly three times, with no
sleep after the final iteration. -/
theorem c10_no_trailing_delay_witness :
    main_loop_trace 4 (fun _ => CycleOutcome.ok true) =
      (List.range 3).flatMap
        (fun k => [iteration_event (fun _ => CycleOutcome.ok true) k,
          LoopEvent.sleep]) ++
      [iteration_event (fun _ => CycleOutcome.ok true) 3] ∧
    ((main_loop_trace 4 (fun _ => CycleOutcome.ok true)).filter
      (fun e => e = LoopEvent.sleep)).length = 3 :=
  c10_no_trailing_delay 4 (fun _ => CycleOutcome.ok true) (by norm_num)

/-- A digit character parses back to its value. -/
theorem digit?_digitChar (n : Nat) (h : n < 10) :
    digit? (digitChar n) = some n := by
  interval_cases n <;> decide

/-- Round trip: a strict-format rendering of calendar-valid components is
parsed back to exactly those components. -/
theorem strptimeFormat_roundtrip (y m d h mi s : Nat)
    (hy : 1 ≤ y) (hy2 : y ≤ 9999) (hm : 1 ≤ m) (hm2 : m ≤ 12)
    (hd : 1 ≤ d) (hd2 : d ≤ daysInMonth y m)
    (hh : h ≤ 23) (hmi : mi ≤ 59) (hs : s ≤ 59) :
    strptimeFormat (formatDateTime y m d h mi s) = some (y, m, d, h, mi, s) := by
  have e1 : digit? (digitChar (y / 1000 % 10)) = some (y / 1000 % 10) :=
    digit?_digitChar _ (Nat.mod_lt _ (by norm_num))
  have e2 : digit? (digitChar (y / 100 % 10)) = some (y / 100 % 10) :=
    digit?_digitChar _ (Nat.mod_lt _ (by norm_num))
  have e3 : digit? (digitChar (y / 10 % 10)) = some (y / 10 % 10) :=
    digit?_digitChar _ (Nat.mod_lt _ (by norm_num))
  have e4 : digit? (digitChar (y % 10)) = some (y % 10) :=
    digit?_digitChar _ (Nat.mod_lt _ (by norm_num))
  have e5 : digit? (digitChar (m / 10 % 10)) = some (m / 10 % 10) :=
    digit?_digitChar _ (Nat.mod_lt _ (by norm_num))
  have e6 : digit? (digitChar (m % 10)) = some (m % 10) :=
    digit?_digitChar _ (Nat.mod_lt _ (by norm_num))
  have e7 : digit? (digitChar (d / 10 % 10)) = some (d / 10 % 10) :=
    digit?_digitChar _ (Nat.mod_lt _ (by norm_num))
  have e8 : digit? (digitChar (d % 10)) = some (d % 10) :=
    digit?_digitChar _ (Nat.mod_lt _ (by norm_num))
  have e9 : digit? (digitChar (h / 10 % 10)) = some (h / 10 % 10) :=
    digit?_digitChar _ (Nat.mod_lt _ (by norm_num))
  have e10 : digit? (digitChar (h % 10)) = some (h % 10) :=
    digit?_digitChar _ (Nat.mod_lt _ (by norm_num))
  have e11 : digit? (digitChar (mi / 10 % 10)) = some (mi / 10 % 10) :=
    digit?_digitChar _ (Nat.mod_lt _ (by norm_num))
  have e12 : digit? (digitChar (mi % 10)) = some (mi % 10) :=
    digit?_digitChar _ (Nat.mod_lt _ (by norm_num))
  have e13 : digit? (digitChar (s / 10 % 10)) = some (s / 10 % 10) :=
    digit?_digitChar _ (Nat.mod_lt _ (by norm_num))
  have e14 : digit? (digitChar (s % 10)) = some (s % 10) :=
    digit?_digitChar _ (Nat.mod_lt _ (by norm_num))
  have hy' : y / 1000 % 10 * 1000 + y / 100 % 10 * 100 + y / 10 % 10 * 10
      + y % 10 = y := by omega
  have hm' : m / 10 % 10 * 10 + m % 10 = m := by omega
  have hd31 : daysInMonth y m ≤ 31 := by
    unfold daysInMonth
    split
    · split <;> norm_num
    · split <;> norm_num
  have hd' : d / 10 % 10 * 10 + d % 10 = d := by omega
  have hh' : h / 10 % 10 * 10 + h % 10 = h := by omega
  have hmi' : mi / 10 % 10 * 10 + mi % 10 = mi := by omega
  have hs' : s / 10 % 10 * 10 + s % 10 = s := by omega
  unfold formatDateTime fourDigits twoDigits strptimeFormat
  simp only [List.cons_append, List.nil_append]
  rw [e1, e2, e3, e4, e5, e6, e7, e8, e9, e10, e11, e12, e13, e14]
  simp only [hy', hm', hd', hh', hmi', hs']
  have hvalid : validDateTime y m d h mi s :=
    ⟨hy, hm, hm2, hd, hd2, hh, hmi, hs⟩
  rw [if_pos hvalid]
  simp

/-- C3: Timestamp fallback: a string in the strict `YYYY-MM-DD HH:MM:SS`
format with calendar-valid components parses to the Unix seconds of that
local time; any input that fails to parse yields the current wall-clock
time `now` instead of an error. -/
theorem c3_timestamp_fallback (now tz : Int) (y m d h mi s : Nat)
    (str : String)
    (hy : 1 ≤ y) (hy2 : y ≤ 9999) (hm : 1 ≤ m) (hm2 : m ≤ 12)
    (hd : 1 ≤ d) (hd2 : d ≤ daysInMonth y m)
    (hh : h ≤ 23) (hmi : mi ≤ 59) (hs : s ≤ 59)
    (hfail : strptimeFormat str = none) :
    parse_timestamp now tz (formatDateTime y m d h mi s) =
      localToUnix y m d h mi s tz ∧
    parse_timestamp now tz str = now := by
  constructor
  · unfold parse_timestamp
    rw [strptimeFormat_roundtrip y m d h mi s hy hy2 hm hm2 hd hd2 hh hmi hs]
  · unfold parse_timestamp
    rw [hfail]

/-- Witness for C3: a well-formed timestamp parses to its local-time Unix
value; a malformed one falls back to `now` (= 777 here). -/
theorem c3_timestamp_fallback_witness :
    parse_timestamp 777 3600 "2024-06-15 12:30:45" =
      localToUnix 2024 6 15 12 30 45 3600 ∧
    parse_timestamp 777 3600 "not a timestamp" = 777 := by
  have h := c3_timestamp_fallback 777 3600 2024 6 15 12 30 45
    "not a timestamp" (by norm_num) (by norm_num) (by norm_num) (by norm_num)
    (by norm_num) (by decide) (by norm_num) (by norm_num) (by norm_num)
    (by rfl)
  have hf : formatDateTime 2024 6 15 12 30 45 = "2024-06-15 12:30:45" := by
    rfl
  exact ⟨by rw [← hf]; exact h.1, h.2⟩

/-- Lookup in the empty dictionary always misses. -/
theorem dlookup_nil (k : String) : dlookup [] k = none := rfl

/-- C1 counterexample: a site reading with a solar-bank info block whose
optional power field `total_photovoltaic_power` is absent makes the
normalizer raise `KeyError` (line 122 indexes it directly), contradicting
"never faults when any optional power field is absent". -/
theorem c1_normalization_counterexample :
    normalize_site 0 0 [
      ("site_info", PyVal.dict [("site_name", PyVal.str "balcony")]),
      ("solarbank_info", PyVal.dict [
        ("solarbank_list", PyVal.list []),
        ("updated_time", PyVal.str "2024-01-01 00:00:00")])] =
    Except.error (PyErr.keyError "total_photovoltaic_power") := by rfl

/-- C1 (amended): the normalizer never faults and substitutes exactly `0.0`
for every absent `.get`-accessed optional power field (`solar_power_1..4`,
`home_load_power`, `grid_to_home_power`, `photovoltaic_to_grid_power`,
`to_home_load`, `ac_power`, and the battery fields via an empty solar-bank
list) — provided the required keys `solarbank_list`, `updated_time`,
`site_info`/`site_name` and `total_photovoltaic_power` are present; absence
of those required keys raises instead. -/
theorem c1_normalization_defaults_amended (now tz : Int)
    (site info si : List (String × PyVal)) (sn : PyVal) (tpv : Rat)
    (ut : String)
    (hinfo : dlookup site "solarbank_info" = some (PyVal.dict info))
    (hgrid : dlookup site "grid_info" = none)
    (hsbl : dlookup info "solarbank_list" = some (PyVal.list []))
    (hut : dlookup info "updated_time" = some (PyVal.str ut))
    (hsi : dlookup site "site_info" = some (PyVal.dict si))
    (hsn : dlookup si "site_name" = some sn)
    (htpv : dlookup info "total_photovoltaic_power" = some (PyVal.num tpv))
    (hsp1 : dlookup info "solar_power_1" = none)
    (hsp2 : dlookup info "solar_power_2" = none)
    (hsp3 : dlookup info "solar_power_3" = none)
    (hsp4 : dlookup info "solar_power_4" = none)
    (hthl : dlookup info "to_home_load" = none)
    (hacp : dlookup info "ac_power" = none)
    (hhlp : dlookup site "home_load_power" = none) :
    normalize_site now tz site = Except.ok (some [
      ("site_name", sn),
      ("total_photovoltaic_power", PyVal.num tpv),
      ("solar_power_1", PyVal.num 0),
      ("solar_power_2", PyVal.num 0),
      ("solar_power_3", PyVal.num 0),
      ("solar_power_4", PyVal.num 0),
      ("battery_percentage", PyVal.num 0),
      ("battery_charge_power", PyVal.num 0),
      ("home_load_power", PyVal.num 0),
      ("grid_to_home_power", PyVal.num 0),
      ("photovoltaic_to_grid_power", PyVal.num 0),
      ("to_home_load", PyVal.num 0),
      ("ac_power", PyVal.num 0),
      ("timestamp", PyVal.int (parse_timestamp now tz ut))]) := by
  unfold normalize_site
  rw [hinfo]
  simp only [asDict, gridInfoOf, hgrid, require, hsbl, asList, batteryOf,
    hut, asStr, hsi, hsn, htpv, pyFloat, getOptFloat, hsp1, hsp2, hsp3, hsp4,
    hthl, hacp, hhlp, dlookup_nil, Option.getD, bind, Except.bind]

/-- Witness for the amended C1 at a concrete site whose optional fields are
all absent: every one of them comes out as exactly `0.0`. -/
theorem c1_normalization_defaults_amended_witness :
    normalize_site 0 0 [
      ("site_info", PyVal.dict [("site_name", PyVal.str "balcony")]),
      ("solarbank_info", PyVal.dict [
        ("solarbank_list", PyVal.list []),
        ("updated_time", PyVal.str "2024-01-01 00:00:00"),
        ("total_photovoltaic_power", PyVal.num 5)])] =
    Except.ok (some [
      ("site_name", PyVal.str "balcony"),
      ("total_photovoltaic_power", PyVal.num 5),
      ("solar_power_1", PyVal.num 0),
      ("solar_power_2", PyVal.num 0),
      ("solar_power_3", PyVal.num 0),
      ("solar_power_4", PyVal.num 0),
      ("battery_percentage", PyVal.num 0),
      ("battery_charge_power", PyVal.num 0),
      ("home_load_power", PyVal.num 0),
      ("grid_to_home_power", PyVal.num 0),
      ("photovoltaic_to_grid_power", PyVal.num 0),
      ("to_home_load", PyVal.num 0),
      ("ac_power", PyVal.num 0),
      ("timestamp",
        PyVal.int (parse_timestamp 0 0 "2024-01-01 00:00:00"))]) :=
  c1_normalization_defaults_amended 0 0 _ _ _ _ 5 _
    rfl rfl rfl rfl rfl rfl rfl rfl rfl rfl rfl rfl rfl rfl

/-- A site without a solar-bank info block is skipped, not an error. -/
theorem normalize_site_no_block (now tz : Int) (site : List (String × PyVal))
    (h : dlookup site "solarbank_info" = none) :
    normalize_site now tz site = Except.ok none := by
  unfold normalize_site
  rw [h]

/-- C7: Missing-site skip: a site lacking the `solarbank_info` block yields
no record and does not raise; provided every site that has the block
normalizes successfully, the whole fetch succeeds, produces exactly the
records of the successfully normalized sites in order, and its record count
equals the number of sites carrying the block — one record per such site. -/
theorem c7_missing_site_skip (now tz : Int)
    (sites : List (List (String × PyVal)))
    (H : ∀ site ∈ sites, (dlookup site "solarbank_info").isSome →
      ∃ r, normalize_site now tz site = Except.ok (some r)) :
    (∀ site ∈ sites, dlookup site "solarbank_info" = none →
      normalize_site now tz site = Except.ok none) ∧
    fetch_anker_data now tz sites =
      Except.ok (sites.filterMap (fun site =>
        match normalize_site now tz site with
        | Except.ok r => r
        | Except.error _ => none)) ∧
    (sites.filterMap (fun site =>
        match normalize_site now tz site with
        | Except.ok r => r
        | Except.error _ => none)).length =
      (sites.filter
        (fun site => (dlookup site "solarbank_info").isSome)).length := by
  refine ⟨fun site _ hnone => normalize_site_no_block now tz site hnone, ?_⟩
  induction sites with
  | nil => exact ⟨rfl, rfl⟩
  | cons s rest ih =>
    have Hrest : ∀ site ∈ rest, (dlookup site "solarbank_info").isSome →
        ∃ r, normalize_site now tz site = Except.ok (some r) :=
      fun site hs hb => H site (List.mem_cons_of_mem _ hs) hb
    obtain ⟨ih1, ih2⟩ := ih Hrest
    cases hb : dlookup s "solarbank_info" with
    | none =>
      have hs0 : normalize_site now tz s = Except.ok none :=
        normalize_site_no_block now tz s hb
      constructor
      · show (match normalize_site now tz s with
          | Except.error e => Except.error e
          | Except.ok none => fetch_anker_data now tz rest
          | Except.ok (some r) =>
            match fetch_anker_data now tz rest with
            | Except.error e => Except.error e
            | Except.ok out => Except.ok (r :: out)) = _
        rw [hs0, List.filterMap_cons, hs0]
        exact ih1
      · rw [List.filterMap_cons, hs0, List.filter_cons, hb]
        simpa using ih2
    | some v =>
      obtain ⟨r, hr⟩ := H s (List.mem_cons_self _ _) (by rw [hb]; rfl)
      constructor
      · show (match normalize_site now tz s with
          | Except.error e => Except.error e
          | Except.ok none => fetch_anker_data now tz rest
          | Except.ok (some r) =>
            match fetch_anker_data now tz rest with
            | Except.error e => Except.error e
            | Except.ok out => Except.ok (r :: out)) = _
        rw [hr, ih1, List.filterMap_cons, hr]
      · rw [List.filterMap_cons, hr, List.filter_cons, hb]
        simpa using ih2

/-- Witness for C7: a cycle over a site without the block and a full site
produces exactly the full site's record — the block-less site is skipped
without aborting its neighbour. -/
theorem c7_missing_site_skip_witness :
    fetch_anker_data 0 0 [
      [("site_info", PyVal.dict [("site_name", PyVal.str "empty-site")])],
      [("solarbank_info", PyVal.dict [
          ("solarbank_list", PyVal.list [PyVal.dict [
            ("charging_power", PyVal.num 30),
            ("battery_power", PyVal.num 80)]]),
          ("updated_time", PyVal.str "2024-06-15 12:30:45"),
          ("total_photovoltaic_power", PyVal.num 5),
          ("to_home_load", PyVal.num 1),
          ("ac_power", PyVal.num 2),
          ("solar_power_1", PyVal.num 3)]),
        ("grid_info", PyVal.dict [("grid_to_home_power", PyVal.num 4)]),
        ("home_load_power", PyVal.num 6),
        ("site_info", PyVal.dict [("site_name", PyVal.str "home")])]] =
    Except.ok [[
      ("site_name", PyVal.str "home"),
      ("total_photovoltaic_power", PyVal.num 5),
      ("solar_power_1", PyVal.num 3),
      ("solar_power_2", PyVal.num 0),
      ("solar_power_3", PyVal.num 0),
      ("solar_power_4", PyVal.num 0),
      ("battery_percentage", PyVal.num 80),
      ("battery_charge_power", PyVal.num 30),
      ("home_load_power", PyVal.num 6),
      ("grid_to_home_power", PyVal.num 4),
      ("photovoltaic_to_grid_power", PyVal.num 0),
      ("to_home_load", PyVal.num 1),
      ("ac_power", PyVal.num 2),
      ("timestamp",
        PyVal.int (parse_timestamp 0 0 "2024-06-15 12:30:45"))]] := by
  have h := c7_missing_site_skip 0 0 [
    [("site_info", PyVal.dict [("site_name", PyVal.str "empty-site")])],
    [("solarbank_info", PyVal.dict [
        ("solarbank_list", PyVal.list [PyVal.dict [
          ("charging_power", PyVal.num 30),
          ("battery_power", PyVal.num 80)]]),
        ("updated_time", PyVal.str "2024-06-15 12:30:45"),
        ("total_photovoltaic_power", PyVal.num 5),
        ("to_home_load", PyVal.num 1),
        ("ac_power", PyVal.num 2),
        ("solar_power_1", PyVal.num 3)]),
      ("grid_info", PyVal.dict [("grid_to_home_power", PyVal.num 4)]),
      ("home_load_power", PyVal.num 6),
      ("site_info", PyVal.dict [("site_name", PyVal.str "home")])]]
    (by
      intro site hs hb
      simp only [List.mem_cons, List.not_mem_nil, or_false] at hs
      rcases hs with rfl | rfl
      · exact absurd hb (by decide)
      · exact ⟨_, rfl⟩)
  exact h.2.1.trans (by rfl)

/-- Inversion for a successful `Except` bind. -/
theorem except_bind_ok {α β : Type} {x : Except PyErr α}
    {f : α → Except PyErr β} {b : β} (h : (x >>= f) = Except.ok b) :
    ∃ a, x = Except.ok a ∧ f a = Except.ok b := by
  cases x with
  | error e => exact absurd h (by simp [Bind.bind, Except.bind])
  | ok a => exact ⟨a, rfl, by simpa [Bind.bind, Except.bind] using h⟩

/-- Every record the normalizer produces has exactly the fixed shape: the
fourteen keys in construction order, with rational power metrics and an
integer timestamp. -/
theorem normalize_site_shape (now tz : Int) (site : List (String × PyVal))
    (r : List (String × PyVal))
    (h : normalize_site now tz site = Except.ok (some r)) :
    ∃ (sn : PyVal) (q1 q2 q3 q4 q5 q6 q7 q8 q9 q10 q11 q12 : Rat) (t : Int),
      r = [
        ("site_name", sn),
        ("total_photovoltaic_power", PyVal.num q1),
        ("solar_power_1", PyVal.num q2),
        ("solar_power_2", PyVal.num q3),
        ("solar_power_3", PyVal.num q4),
        ("solar_power_4", PyVal.num q5),
        ("battery_percentage", PyVal.num q6),
        ("battery_charge_power", PyVal.num q7),
        ("home_load_power", PyVal.num q8),
        ("grid_to_home_power", PyVal.num q9),
        ("photovoltaic_to_grid_power", PyVal.num q10),
        ("to_home_load", PyVal.num q11),
        ("ac_power", PyVal.num q12),
        ("timestamp", PyVal.int t)] := by
  unfold normalize_site at h
  cases hb : dlookup site "solarbank_info" with
  | none => rw [hb] at h; simp at h
  | some infoV =>
    rw [hb] at h
    obtain ⟨info, _, h⟩ := except_bind_ok h
    obtain ⟨grid_info, _, h⟩ := except_bind_ok h
    obtain ⟨sblV, _, h⟩ := except_bind_ok h
    obtain ⟨sblist, _, h⟩ := except_bind_ok h
    obtain ⟨battery, _, h⟩ := except_bind_ok h
    obtain ⟨utV, _, h⟩ := except_bind_ok h
    obtain ⟨uts, _, h⟩ := except_bind_ok h
    obtain ⟨sidV, _, h⟩ := except_bind_ok h
    obtain ⟨sid, _, h⟩ := except_bind_ok h
    obtain ⟨sn, _, h⟩ := except_bind_ok h
    obtain ⟨tpvV, _, h⟩ := except_bind_ok h
    obtain ⟨tpv, _, h⟩ := except_bind_ok h
    obtain ⟨sp1, _, h⟩ := except_bind_ok h
    obtain ⟨sp2, _, h⟩ := except_bind_ok h
    obtain ⟨sp3, _, h⟩ := except_bind_ok h
    obtain ⟨sp4, _, h⟩ := except_bind_ok h
    obtain ⟨hlp, _, h⟩ := except_bind_ok h
    obtain ⟨gthp, _, h⟩ := except_bind_ok h
    obtain ⟨ptgp, _, h⟩ := except_bind_ok h
    obtain ⟨thl, _, h⟩ := except_bind_ok h
    obtain ⟨acp, _, h⟩ := except_bind_ok h
    simp only [Except.ok.injEq, Option.some.injEq] at h
    exact ⟨sn, tpv, sp1, sp2, sp3, sp4, battery.2, battery.1, hlp, gthp,
      ptgp, thl, acp, parse_timestamp now tz uts, h.symm⟩

/-- Every record in a successful fetch came from a successful per-site
normalization. -/
theorem fetch_anker_data_mem (now tz : Int) :
    ∀ (sites out : List (List (String × PyVal))),
      fetch_anker_data now tz sites = Except.ok out →
      ∀ r ∈ out, ∃ site, normalize_site now tz site = Except.ok (some r) := by
  intro sites
  induction sites with
  | nil =>
    intro out hf r hr
    simp only [fetch_anker_data, Except.ok.injEq] at hf
    subst hf
    exact absurd hr (List.not_mem_nil r)
  | cons s rest ih =>
    intro out hf r hr
    unfold fetch_anker_data at hf
    cases hn : normalize_site now tz s with
    | error e => rw [hn] at hf; simp at hf
    | ok o =>
      rw [hn] at hf
      cases o with
      | none => exact ih out hf r hr
      | some r0 =>
        cases hfr : fetch_anker_data now tz rest with
        | error e => rw [hfr] at hf; simp at hf
        | ok out0 =>
          rw [hfr] at hf
          simp only [Except.ok.injEq] at hf
          subst hf
          rcases List.mem_cons.mp hr with rfl | hmem
          · exact ⟨s, hn⟩
          · exact ih out0 hfr r hmem

/-- C9: Complete field set invariant: every record produced by
`fetch_anker_data` carries exactly the fixed key set — `site_name`,
`timestamp`, and the twelve power metrics — with every power metric a float
and the timestamp an integer; consequently every `anker_power` point built
by the writer carries all twelve fields. -/
theorem c9_complete_field_set (now tz : Int)
    (sites out : List (List (String × PyVal)))
    (hf : fetch_anker_data now tz sites = Except.ok out) :
    ∀ r ∈ out,
      r.map Prod.fst = record_keys ∧
      (∀ k ∈ power_field_names,
        ∃ q : Rat, dlookup r k = some (PyVal.num q)) ∧
      (∃ t : Int, dlookup r "timestamp" = some (PyVal.int t)) ∧
      (∃ p : Point, mkPoint r = Except.ok p ∧
        p.measurement = "anker_power" ∧
        p.fields.map Prod.fst = power_field_names ∧
        (∀ kv ∈ p.fields, ∃ q : Rat, kv.2 = PyVal.num q) ∧
        (∃ t : Int, p.time = PyVal.int t)) := by
  intro r hr
  obtain ⟨site, hn⟩ := fetch_anker_data_mem now tz sites out hf r hr
  obtain ⟨sn, q1, q2, q3, q4, q5, q6, q7, q8, q9, q10, q11, q12, t, rfl⟩ :=
    normalize_site_shape now tz site r hn
  refine ⟨rfl, ?_, ⟨t, rfl⟩, ?_⟩
  · intro k hk
    simp only [power_field_names, List.mem_cons, List.not_mem_nil,
      or_false] at hk
    rcases hk with rfl | rfl | rfl | rfl | rfl | rfl | rfl | rfl | rfl | rfl
      | rfl | rfl <;> exact ⟨_, rfl⟩
  · refine ⟨_, rfl, rfl, rfl, ?_, ⟨t, rfl⟩⟩
    intro kv hkv
    fin_cases hkv <;> exact ⟨_, rfl⟩

/-- Witness for C9 at a concrete fetched site: the produced record's key
list is exactly the fixed key set. -/
theorem c9_complete_field_set_witness :
    ([
      ("site_name", PyVal.str "home"),
      ("total_photovoltaic_power", PyVal.num 5),
      ("solar_power_1", PyVal.num 3),
      ("solar_power_2", PyVal.num 0),
      ("solar_power_3", PyVal.num 0),
      ("solar_power_4", PyVal.num 0),
      ("battery_percentage", PyVal.num 80),
      ("battery_charge_power", PyVal.num 30),
      ("home_load_power", PyVal.num 6),
      ("grid_to_home_power", PyVal.num 4),
      ("photovoltaic_to_grid_power", PyVal.num 0),
      ("to_home_load", PyVal.num 1),
      ("ac_power", PyVal.num 2),
      ("timestamp",
        PyVal.int (parse_timestamp 0 0 "2024-06-15 12:30:45"))] :
      List (String × PyVal)).map Prod.fst = record_keys :=
  (c9_complete_field_set 0 0
    [[("solarbank_info", PyVal.dict [
        ("solarbank_list", PyVal.list [PyVal.dict [
          ("charging_power", PyVal.num 30),
          ("battery_power", PyVal.num 80)]]),
        ("updated_time", PyVal.str "2024-06-15 12:30:45"),
        ("total_photovoltaic_power", PyVal.num 5),
        ("to_home_load", PyVal.num 1),
        ("ac_power", PyVal.num 2),
        ("solar_power_1", PyVal.num 3)]),
      ("grid_info", PyVal.dict [("grid_to_home_power", PyVal.num 4)]),
      ("home_load_power", PyVal.num 6),
      ("site_info", PyVal.dict [("site_name", PyVal.str "home")])]]
    [[
      ("site_name", PyVal.str "home"),
      ("total_photovoltaic_power", PyVal.num 5),
      ("solar_power_1", PyVal.num 3),
      ("solar_power_2", PyVal.num 0),
      ("solar_power_3", PyVal.num 0),
      ("solar_power_4", PyVal.num 0),
      ("battery_percentage", PyVal.num 80),
      ("battery_charge_power", PyVal.num 30),
      ("home_load_power", PyVal.num 6),
      ("grid_to_home_power", PyVal.num 4),
      ("photovoltaic_to_grid_power", PyVal.num 0),
      ("to_home_load", PyVal.num 1),
      ("ac_power", PyVal.num 2),
      ("timestamp",
        PyVal.int (parse_timestamp 0 0 "2024-06-15 12:30:45"))]]
    rfl _ (List.mem_cons_self _ _)).1

end AnkerSolix
